import Mathlib

/-!
Shallow embedding of the Xendit payment-gateway integration
(`payments/payment_gateways/doctype/xendit_settings/xendit_settings.py`).

The Python module is modelled as pure Lean functions over explicit state:
the Integration Request store is a list of records, the provider API and
the frappe document store are oracles supplied through environment
structures, and every observable side effect (provider calls, persisted
request logs, the notification hook, `frappe.throw`, `frappe.log_error`,
and the redirect response) is returned as part of an outcome structure.
Python exceptions that are caught inside the module are modelled with
`Except`; `frappe.throw` messages that escape the endpoint are recorded
in the outcome.
-/

set_option autoImplicit false

namespace XenditSpec

/-- The module-level `api_path` constant of the source file. -/
def api_path : String :=
  "/api/method/payments.payment_gateways.doctype.xendit_settings.xendit_settings"

/-- `frappe.utils.get_url`: resolves a path against the site base URL
(external collaborator; modelled as concatenation with the base). -/
def get_url (base path : String) : String := base ++ path

/-- `XenditSettings.supported_currencies` from the source. -/
def supported_currencies : List String := ["IDR"]

/-- `XenditSettings.validate_transaction_currency`: `frappe.throw` with the
formatted message when the currency is not in `supported_currencies`,
otherwise no error.  The thrown message is returned as `some msg`. -/
def validate_transaction_currency (currency : String) : Option String :=
  if currency ∈ supported_currencies then none
  else some ("Please select another payment method. Xendit does not support transactions in currency \x27"
      ++ currency ++ "\x27")

/-! ## Fee computation (`execute_set_express_checkout`, fee block)

The Python expression is `2000 + int((((2.9 / 100) * payment_request.grand_total) / 1000)) * 1000`,
evaluated in IEEE 754 binary64 ("double") arithmetic: the literal `2.9`
is the double nearest 29/10, and each of `/ 100`, `* grand_total` and
`/ 1000` rounds its exact result to the nearest double (ties to even).
A finite double is represented here as a mantissa-exponent pair
`(m, e) : ℤ × ℤ` denoting the exact value `m * 2 ^ e`; rounding is
implemented over integer arithmetic.  Overflow to infinity is not
modelled (it is unreachable below 10^300).  Python `int()` truncates
toward zero. -/

/-- Floor of the base-2 logarithm of a natural number (0 for 0), by
fuel recursion (the fuel `n` dominates the number of halvings). -/
def log2Fuel : Nat → Nat → Nat
  | 0, _ => 0
  | fuel + 1, n => if n < 2 then 0 else log2Fuel fuel (n / 2) + 1

/-- Floor of the base-2 logarithm of a natural number. -/
def natLog2 (n : Nat) : Nat := log2Fuel n n

/-- Floor of the base-2 logarithm of the positive fraction `n / d`. -/
def floorLog2Frac (n d : Nat) : ℤ :=
  let a := natLog2 n
  let b := natLog2 d
  if d * 2 ^ a ≤ n * 2 ^ b then (a : ℤ) - b else (a : ℤ) - b - 1

/-- Round the fraction `n / d` (with `d > 0`) to the nearest integer,
ties to even. -/
def roundHalfEvenFrac (n : ℤ) (d : ℕ) : ℤ :=
  let di : ℤ := (d : ℤ)
  let f := Int.fdiv n di
  let r2 := 2 * (n - f * di)
  if r2 < di then f
  else if di < r2 then f + 1
  else if f % 2 = 0 then f else f + 1

/-- The binary64 value nearest the positive fraction `n / d`: clamp the
exponent at the subnormal range and round the scaled mantissa to
nearest, ties to even. -/
def flFracPos (n d : ℕ) : ℤ × ℤ :=
  let e : ℤ := max (floorLog2Frac n d) (-1022)
  let k : ℤ := 52 - e
  let m : ℤ :=
    if 0 ≤ k then roundHalfEvenFrac ((n * 2 ^ k.toNat : ℕ) : ℤ) d
    else roundHalfEvenFrac (n : ℤ) (d * 2 ^ (-k).toNat)
  (m, e - 52)

/-- The binary64 value nearest the fraction `n / d` (`d > 0`), as a
mantissa-exponent pair. -/
def flFrac (n : ℤ) (d : ℕ) : ℤ × ℤ :=
  if n = 0 then (0, 0)
  else if 0 < n then flFracPos n.toNat d
  else (-(flFracPos (-n).toNat d).1, (flFracPos (-n).toNat d).2)

/-- Round the exact dyadic value `m * 2 ^ e` to binary64. -/
def flDyadic (m e : ℤ) : ℤ × ℤ :=
  if 0 ≤ e then flFrac (m * ((2 ^ e.toNat : ℕ) : ℤ)) 1
  else flFrac m (2 ^ (-e).toNat)

/-- Binary64 multiplication: the exact product of two doubles, rounded. -/
def flMul (x y : ℤ × ℤ) : ℤ × ℤ := flDyadic (x.1 * y.1) (x.2 + y.2)

/-- Binary64 division of a double by a positive integer (the exact
quotient, rounded); `100` and `1000` are themselves exact doubles. -/
def flDivNat (x : ℤ × ℤ) (k : ℕ) : ℤ × ℤ :=
  if 0 ≤ x.2 then flFrac (x.1 * ((2 ^ x.2.toNat : ℕ) : ℤ)) k
  else flFrac x.1 (k * 2 ^ (-x.2).toNat)

/-- Python `int()` applied to a double: truncation toward zero. -/
def pyInt (x : ℤ × ℤ) : ℤ :=
  if 0 ≤ x.2 then x.1 * ((2 ^ x.2.toNat : ℕ) : ℤ)
  else Int.tdiv x.1 ((2 ^ (-x.2).toNat : ℕ) : ℤ)

/-- The exact rational value of a double. -/
def dyadicVal (x : ℤ × ℤ) : ℚ := (x.1 : ℚ) * 2 ^ x.2

/-- The double computed by the Python expression `2.9 / 100`: the
double nearest 29/10, divided by 100 with rounding.  Its exact value is
8358680908399640 / 2 ^ 58 = 0.0289999999999999980015985556747182272374629974365234375,
strictly below 29/1000. -/
def py_2_9_div_100 : ℤ × ℤ := flDivNat (flFrac 29 10) 100

/-- The gateway fee value computed in `execute_set_express_checkout`:
`2000 + int(((2.9 / 100) * grand_total) / 1000) * 1000` in binary64
arithmetic, where `grand_total` is the Payment Request's float field
(the double nearest the exact amount). -/
def computeFee (grand_total : ℚ) : ℤ :=
  2000 + pyInt (flDivNat (flMul py_2_9_div_100 (flFrac grand_total.num grand_total.den)) 1000) * 1000

/-! ## URL encoding (`urllib.parse.urlencode`)

`setup_redirect` calls `urlencode` on a single-entry dict.  `urlencode`
percent-encodes the UTF-8 bytes of the value with `quote_plus`: ASCII
letters, digits and `_ . - ~` pass through, space becomes `+`, every
other byte becomes `%XX` with uppercase hex digits. -/

/-- UTF-8 encoding of a single character, as its list of byte values. -/
def utf8EncodeChar (c : Char) : List Nat :=
  let n := c.toNat
  if n < 128 then [n]
  else if n < 2048 then [192 + n / 64, 128 + n % 64]
  else if n < 65536 then [224 + n / 4096, 128 + (n / 64) % 64, 128 + n % 64]
  else [240 + n / 262144, 128 + (n / 4096) % 64, 128 + (n / 64) % 64, 128 + n % 64]

/-- UTF-8 bytes of a string. -/
def utf8Bytes (s : String) : List Nat := (s.data.map utf8EncodeChar).flatten

/-- Uppercase hexadecimal digit for a value below 16. -/
def hexDigit (n : Nat) : Char :=
  (['0', '1', '2', '3', '4', '5', '6', '7', '8', '9', 'A', 'B', 'C', 'D', 'E', 'F']).getD n '0'

/-- Bytes left unencoded by Python `quote_plus`: ASCII alphanumerics and `_ . - ~`. -/
def isSafeByte (b : Nat) : Bool :=
  (decide (48 ≤ b) && decide (b ≤ 57)) || (decide (65 ≤ b) && decide (b ≤ 90))
    || (decide (97 ≤ b) && decide (b ≤ 122)) || b == 95 || b == 46 || b == 45 || b == 126

/-- `quote_plus` on one byte. -/
def quotePlusByte (b : Nat) : String :=
  if isSafeByte b then String.singleton (Char.ofNat b)
  else if b == 32 then "+"
  else "%" ++ String.singleton (hexDigit (b / 16)) ++ String.singleton (hexDigit (b % 16))

/-- Python `urllib.parse.quote_plus` on a string. -/
def quote_plus (s : String) : String := String.join ((utf8Bytes s).map quotePlusByte)

/-- Python `urllib.parse.urlencode` on a one-entry dict `\x7bkey: value\x7d`. -/
def urlencode (key value : String) : String := quote_plus key ++ "=" ++ quote_plus value

/-! ## Redirect builder (`setup_redirect`) -/

/-- Python truthiness of an optional string (`None` and `""` are falsy). -/
def truthyOpt : Option String → Bool
  | none => false
  | some s => !(s == "")

/-- `setup_redirect(data, redirect_url, custom_redirect_to)` from the source,
returning the final `redirect_url` string handed to `get_url` for the
redirect response.  `data_redirect_to` / `data_redirect_message` are
`data.get("redirect_to")` / `data.get("redirect_message")`. -/
def setup_redirect (data_redirect_to data_redirect_message : Option String)
    (redirect_url : String) (custom_redirect_to : Option String) : String :=
  let redirect_to := data_redirect_to
  let redirect_to := if truthyOpt custom_redirect_to then custom_redirect_to else redirect_to
  let url := if truthyOpt redirect_to then
      redirect_url ++ "&" ++ urlencode "redirect_to" (redirect_to.getD "") else redirect_url
  let url := if truthyOpt data_redirect_message then
      url ++ "&" ++ urlencode "redirect_message" (data_redirect_message.getD "") else url
  url

/-! ## Data model -/

/-- The JSON payload of a Xendit invoice as read by this module
(`json.loads` of the SDK response): only the fields the module touches. -/
structure InvoiceJson where
  id : String
  external_id : String
  status : String
  invoice_url : String
deriving DecidableEq

/-- An Integration Request record as this module uses it: `name` is the
token, `output` the raw provider payload stored at creation, and the
`redirect_to` / `redirect_message` fields are what `data.get(...)`
returns in `setup_redirect`. -/
structure IntegrationRequest where
  name : String
  status : String
  output : InvoiceJson
  reference_doctype : String
  reference_docname : String
  redirect_to : Option String
  redirect_message : Option String
deriving DecidableEq

/-- `Payment Request` document fields read by `execute_set_express_checkout`. -/
structure PaymentRequestDoc where
  reference_name : String
  grand_total : ℚ
deriving DecidableEq

/-- A `Sales Order` item as read by the module. -/
structure SalesOrderItem where
  item_code : String
  rate : ℚ
  qty : ℚ
deriving DecidableEq

/-- `Sales Order` document fields read by the module. -/
structure SalesOrderDoc where
  customer : String
  items : List SalesOrderItem
deriving DecidableEq

/-- An invoice line item passed to `Invoice.create`. -/
structure XenditItem where
  name : String
  price : ℚ
  quantity : ℚ
deriving DecidableEq

/-- The customer block passed to `Invoice.create`: `mobile_number` is
included exactly when the Customer document field is not `None`. -/
structure XenditCustomer where
  given_names : String
  email : String
  mobile_number : Option String
deriving DecidableEq

/-- A fee line passed to `Invoice.create`. -/
structure XenditFee where
  type : String
  value : ℤ
deriving DecidableEq

/-- The full argument record of the `Invoice.create` provider call. -/
structure InvoiceArgs where
  external_id : String
  payer_email : String
  description : String
  amount : ℚ
  customer : XenditCustomer
  should_send_email : Bool
  invoice_duration : ℕ
  success_redirect_url : String
  failure_redirect_url : String
  currency : String
  fees : List XenditFee
  items : List XenditItem
deriving DecidableEq

/-- External collaborators of the checkout path: the frappe document
store lookups and the provider client.  A `none` result models the
document lookup (resp. the provider call) raising. -/
structure CheckoutEnv where
  siteBase : String
  paymentRequest : String → Option PaymentRequestDoc
  salesOrder : String → Option SalesOrderDoc
  customerMobile : String → Option String
  createInvoice : InvoiceArgs → Option InvoiceJson

/-- A Python value passed in `kwargs`: either a `str` or a `bytes`. -/
inductive PyVal where
  | pstr (s : String)
  | pbytes (bs : List Nat)
deriving DecidableEq

/-- The keyword arguments of `get_payment_url` that the module reads.
`title`, `description` and `payer_name` arrive as raw Python values and
are `.decode("ASCII")`-ed first. -/
structure RawKwargs where
  title : PyVal
  description : PyVal
  payer_name : PyVal
  payer_email : String
  amount : ℚ
  reference_doctype : String
  reference_docname : String
deriving DecidableEq

/-- The keyword arguments after the ASCII decoding step. -/
structure DecodedKwargs where
  title : String
  description : String
  payer_name : String
  payer_email : String
  amount : ℚ
  reference_doctype : String
  reference_docname : String
deriving DecidableEq

/-- Python `value.decode("ASCII")`: succeeds only on a `bytes` whose
bytes are all below 128; a `str` has no `decode` attribute and raises
`AttributeError`, undecodable bytes raise `UnicodeDecodeError`. -/
def decodeAscii : PyVal → Except String String
  | PyVal.pstr _ => Except.error "AttributeError: str object has no attribute decode"
  | PyVal.pbytes bs =>
    if bs.all (fun b => b < 128) then Except.ok (String.mk (bs.map Char.ofNat))
    else Except.error "UnicodeDecodeError"

/-- Whether `decodeAscii` fails on a value. -/
def decodeFails (v : PyVal) : Bool :=
  match decodeAscii v with
  | Except.ok _ => false
  | Except.error _ => true

/-! ## Checkout path (`execute_set_express_checkout`, `get_payment_url`) -/

instance {ε α : Type} [DecidableEq ε] [DecidableEq α] : DecidableEq (Except ε α)
  | Except.ok a, Except.ok b =>
    if h : a = b then Decidable.isTrue (by rw [h]) else Decidable.isFalse (by simp [h])
  | Except.ok _, Except.error _ => Decidable.isFalse (by simp)
  | Except.error _, Except.ok _ => Decidable.isFalse (by simp)
  | Except.error e, Except.error f =>
    if h : e = f then Decidable.isTrue (by rw [h]) else Decidable.isFalse (by simp [h])

/-- Outcome of `execute_set_express_checkout`: the returned parsed
invoice or the `frappe.throw` message, together with the list of
`Invoice.create` provider calls that were issued. -/
structure CheckoutOutcome where
  result : Except String InvoiceJson
  createCalls : List InvoiceArgs
deriving DecidableEq

/-- The argument record built for `Invoice.create` by
`execute_set_express_checkout`: items from the Sales Order, the customer
block, the single GATEWAY fee line, and identical success / failure
redirect URLs pointing at `confirm_payment` with the token. -/
def build_invoice_args (env : CheckoutEnv) (kw : DecodedKwargs)
    (pr : PaymentRequestDoc) (so : SalesOrderDoc) : InvoiceArgs :=
  let items := so.items.map (fun it => XenditItem.mk it.item_code it.rate it.qty)
  let customer := XenditCustomer.mk kw.payer_name kw.payer_email (env.customerMobile so.customer)
  let fee := XenditFee.mk "GATEWAY" (computeFee pr.grand_total)
  let payment_confirmation_url :=
    get_url env.siteBase (api_path ++ ".confirm_payment?token=" ++ kw.reference_docname)
  { external_id := kw.reference_docname
    payer_email := kw.payer_email
    description := kw.description
    amount := kw.amount
    customer := customer
    should_send_email := true
    invoice_duration := 600
    success_redirect_url := payment_confirmation_url
    failure_redirect_url := payment_confirmation_url
    currency := "IDR"
    fees := [fee]
    items := items }

/-- `execute_set_express_checkout`: looks up the Payment Request and its
Sales Order (throwing on failure), builds the invoice arguments and calls
`Invoice.create`, throwing if the provider call fails. -/
def execute_set_express_checkout (env : CheckoutEnv) (kw : DecodedKwargs) : CheckoutOutcome :=
  match env.paymentRequest kw.reference_docname with
  | none => CheckoutOutcome.mk
      (Except.error "Referenced doctype for checkout is not a Payment Request") []
  | some pr =>
    match env.salesOrder pr.reference_name with
    | none => CheckoutOutcome.mk
        (Except.error "Doctype referenced by Payment Request is not a Sales Order") []
    | some so =>
      let args := build_invoice_args env kw pr so
      match env.createInvoice args with
      | none => CheckoutOutcome.mk
          (Except.error "Failed to create Xendit Invoice, please check your settings") [args]
      | some invoice => CheckoutOutcome.mk (Except.ok invoice) [args]

/-- Modelled from the spec: `create_request_log` (frappe Integration
Request persistence, which lives outside this repository) saves exactly
one CheckoutToken record, named by the given name, with status Pending,
the provider response as its raw output, and the reference link taken
from the request kwargs. -/
def create_request_log (kw : DecodedKwargs) (name : String) (output : InvoiceJson) :
    IntegrationRequest :=
  IntegrationRequest.mk name "Pending" output kw.reference_doctype kw.reference_docname none none

/-- Outcome of `get_payment_url`: the returned invoice URL or the raised
error message, the provider calls issued, and the request-log records
persisted. -/
structure GatewayOutcome where
  result : Except String String
  createCalls : List InvoiceArgs
  requestLogs : List IntegrationRequest
deriving DecidableEq

/-- `get_payment_url`: ASCII-decodes `title`, `description` and
`payer_name` (raising on failure before anything else happens), runs
`execute_set_express_checkout`, persists the request log on success and
returns the invoice URL. -/
def get_payment_url (env : CheckoutEnv) (kw : RawKwargs) : GatewayOutcome :=
  match decodeAscii kw.title with
  | Except.error e => GatewayOutcome.mk (Except.error e) [] []
  | Except.ok t =>
    match decodeAscii kw.description with
    | Except.error e => GatewayOutcome.mk (Except.error e) [] []
    | Except.ok d =>
      match decodeAscii kw.payer_name with
      | Except.error e => GatewayOutcome.mk (Except.error e) [] []
      | Except.ok p =>
        let dkw := DecodedKwargs.mk t d p kw.payer_email kw.amount
          kw.reference_doctype kw.reference_docname
        let o := execute_set_express_checkout env dkw
        match o.result with
        | Except.error e => GatewayOutcome.mk (Except.error e) o.createCalls []
        | Except.ok response => GatewayOutcome.mk (Except.ok response.invoice_url)
            o.createCalls [create_request_log dkw response.external_id response]

/-- Modelled from the spec: `RequestCheckout` validates the currency
against the allow-list before the gateway is invoked (the currency check
is performed by the calling payment-request controller, which lives
outside this repository); on validation failure nothing else runs. -/
def requestCheckout (env : CheckoutEnv) (kw : RawKwargs) (currency : String) : GatewayOutcome :=
  match validate_transaction_currency currency with
  | some e => GatewayOutcome.mk (Except.error e) [] []
  | none => get_payment_url env kw

/-! ## Confirmation path (`confirm_payment`) -/

/-- External collaborators of the confirmation path: the provider
`Invoice.get` call (`none` models the lookup or fetch raising inside the
first `try` block) and the reference document `on_payment_authorized`
hook, which may return a custom redirect target. -/
structure ConfirmEnv where
  siteBase : String
  getInvoice : String → Option InvoiceJson
  onPaymentAuthorized : String → String → Option String

/-- A Python exception raised inside the second `try` block of
`confirm_payment`. -/
inductive PyExc where
  | unboundLocalError (v : String)
deriving DecidableEq

/-- Reading a Python local variable: `none` means the variable has not
been assigned on the executed path, so the read raises
`UnboundLocalError`. -/
def readVar (v : Option (Option String)) (name : String) : Except PyExc (Option String) :=
  match v with
  | some x => Except.ok x
  | none => Except.error (PyExc.unboundLocalError name)

/-- `update_integration_request_status(token, data, status)`: loads the
Integration Request named by the token and sets its status. -/
def update_integration_request_status (store : List IntegrationRequest)
    (token status : String) : List IntegrationRequest :=
  store.map (fun r => if r.name == token then { r with status := status } else r)

/-- Observable outcome of one `confirm_payment` call: the resulting
store, how often the `on_payment_authorized` hook ran, how many provider
`Invoice.get` calls were made, the `frappe.throw` message escaping the
endpoint (if any), whether `frappe.log_error` ran, and the redirect
response location (if one was set). -/
structure ConfirmOutcome where
  store : List IntegrationRequest
  notifyCount : Nat
  providerCalls : Nat
  thrownMsg : Option String
  loggedError : Bool
  redirectLocation : Option String
deriving DecidableEq

/-- The message of the `frappe.throw` in `confirm_payment`. -/
def fetch_fail_msg : String := "Failed to fetch Xendit Invoice, please check your settings"

/-- The second `try` block of `confirm_payment`, given the stored record
and the freshly fetched invoice.  Returns the store and hook-invocation
count produced before any exception, and either the final redirect
location or the Python exception that the `except Exception` handler
catches.  On the non-PAID path the local `custom_redirect_to` was never
assigned, so reading it for the `setup_redirect` call raises. -/
def confirm_try_block (env : ConfirmEnv) (store : List IntegrationRequest)
    (token : String) (req : IntegrationRequest) (invoice : InvoiceJson) :
    (List IntegrationRequest × Nat) × Except PyExc String :=
  if invoice.status = "PAID" then
    let store1 := update_integration_request_status store token "Completed"
    let custom_redirect_to : Option (Option String) :=
      some (env.onPaymentAuthorized req.reference_doctype req.reference_docname)
    let redirect_url := "payment-success?doctype=" ++ req.reference_doctype
      ++ "&docname=" ++ req.reference_docname
    match readVar custom_redirect_to "custom_redirect_to" with
    | Except.error e => ((store1, 1), Except.error e)
    | Except.ok c => ((store1, 1), Except.ok (get_url env.siteBase
        (setup_redirect req.redirect_to req.redirect_message redirect_url c)))
  else
    let custom_redirect_to : Option (Option String) := none
    let redirect_url := "payment-failed"
    match readVar custom_redirect_to "custom_redirect_to" with
    | Except.error e => ((store, 0), Except.error e)
    | Except.ok c => ((store, 0), Except.ok (get_url env.siteBase
        (setup_redirect req.redirect_to req.redirect_message redirect_url c)))

/-- `confirm_payment(token)`: look up the Integration Request and fetch
the provider invoice (any failure there is re-raised as the
`frappe.throw` message); then run the status-handling `try` block, whose
exceptions are caught and logged. -/
def confirm_payment (env : ConfirmEnv) (store : List IntegrationRequest)
    (token : String) : ConfirmOutcome :=
  match store.find? (fun r => r.name == token) with
  | none => ConfirmOutcome.mk store 0 0 (some fetch_fail_msg) false none
  | some req =>
    match env.getInvoice req.output.id with
    | none => ConfirmOutcome.mk store 0 1 (some fetch_fail_msg) false none
    | some invoice =>
      match confirm_try_block env store token req invoice with
      | ((store1, n), Except.ok loc) => ConfirmOutcome.mk store1 n 1 none false (some loc)
      | ((store1, n), Except.error _) => ConfirmOutcome.mk store1 n 1 none true none

/-- The redirect location `confirm_payment` sets on the PAID path for a
stored record: the success base URL carried through `setup_redirect`
with the hook's custom redirect target. -/
def success_redirect_target (env : ConfirmEnv) (req : IntegrationRequest) : String :=
  get_url env.siteBase (setup_redirect req.redirect_to req.redirect_message
    ("payment-success?doctype=" ++ req.reference_doctype ++ "&docname=" ++ req.reference_docname)
    (env.onPaymentAuthorized req.reference_doctype req.reference_docname))

end XenditSpec

namespace XenditSpec

/-! ## Concrete fixtures used by witnesses and counterexamples -/

/-- Provider payload for the already-Completed token scenario. -/
def c1Inv : InvoiceJson := InvoiceJson.mk "inv1" "PR1" "PAID" "https://pay.example/1"

/-- A stored token whose status is already `Completed`. -/
def c1ReqCompleted : IntegrationRequest :=
  IntegrationRequest.mk "PR1" "Completed" c1Inv "Payment Request" "PR1" none none

/-- Confirmation environment whose provider reports PAID. -/
def c1Env : ConfirmEnv :=
  ConfirmEnv.mk "https://shop.example" (fun _ => some c1Inv) (fun _ _ => none)

/-- Provider payload for the pending-token PAID scenario. -/
def c1wInv : InvoiceJson := InvoiceJson.mk "inv2" "PR2" "PAID" "https://pay.example/2"

/-- A stored token that is still Pending. -/
def c1wReq : IntegrationRequest :=
  IntegrationRequest.mk "PR2" "Pending" c1wInv "Payment Request" "PR2" none none

/-- Confirmation environment whose provider reports PAID and whose hook
returns a custom redirect target. -/
def c1wEnv : ConfirmEnv :=
  ConfirmEnv.mk "https://shop.example" (fun _ => some c1wInv) (fun _ _ => some "orders/PR2")

/-- Confirmation environment whose provider fetch always fails. -/
def c2Env : ConfirmEnv :=
  ConfirmEnv.mk "https://shop.example" (fun _ => none) (fun _ _ => none)

/-- A stored token used for the provider-fetch-failure scenario. -/
def c2Req : IntegrationRequest :=
  IntegrationRequest.mk "PR3" "Pending" (InvoiceJson.mk "inv3" "PR3" "PENDING" "u3")
    "Payment Request" "PR3" none none

/-- A stored Pending token used for the not-PAID scenario. -/
def c4Req : IntegrationRequest :=
  IntegrationRequest.mk "PR4" "Pending" (InvoiceJson.mk "inv4" "PR4" "PENDING" "u4")
    "Payment Request" "PR4" none none

/-- Confirmation environment whose provider reports PENDING. -/
def c4Env : ConfirmEnv :=
  ConfirmEnv.mk "https://shop.example"
    (fun _ => some (InvoiceJson.mk "inv4" "PR4" "PENDING" "u4")) (fun _ _ => some "x")

/-- A stored Pending token used for the expired-invoice scenario. -/
def c9Req : IntegrationRequest :=
  IntegrationRequest.mk "PR9" "Pending" (InvoiceJson.mk "inv9" "PR9" "EXPIRED" "u9")
    "Payment Request" "PR9" none none

/-- Confirmation environment whose provider reports EXPIRED. -/
def c9Env : ConfirmEnv :=
  ConfirmEnv.mk "https://shop.example"
    (fun _ => some (InvoiceJson.mk "inv9" "PR9" "EXPIRED" "u9")) (fun _ _ => some "y")

/-- Checkout environment for the happy-path scenario: every lookup
resolves and the provider creates the invoice, echoing `external_id`. -/
def c6Env : CheckoutEnv :=
  CheckoutEnv.mk "https://shop.example"
    (fun _ => some (PaymentRequestDoc.mk "SO1" 100000))
    (fun _ => some (SalesOrderDoc.mk "CUST1" [SalesOrderItem.mk "ITEM1" 100000 1]))
    (fun _ => some "0812000000")
    (fun a => some (InvoiceJson.mk "xnd1" a.external_id "PENDING"
      "https://checkout.xendit.co/web/xnd1"))

/-- Raw kwargs whose byte-string fields decode to Order / Pay / Ana. -/
def c6Kw : RawKwargs :=
  RawKwargs.mk (PyVal.pbytes [79, 114, 100, 101, 114]) (PyVal.pbytes [80, 97, 121])
    (PyVal.pbytes [65, 110, 97]) "ana@example.com" 104000 "Payment Request" "PR1"

/-- The Payment Request document resolved by `c6Env`. -/
def c6Pr : PaymentRequestDoc := PaymentRequestDoc.mk "SO1" 100000

/-- The Sales Order document resolved by `c6Env`. -/
def c6So : SalesOrderDoc := SalesOrderDoc.mk "CUST1" [SalesOrderItem.mk "ITEM1" 100000 1]

/-- The provider response returned by `c6Env` for the happy path. -/
def c6Resp : InvoiceJson :=
  InvoiceJson.mk "xnd1" "PR1" "PENDING" "https://checkout.xendit.co/web/xnd1"

/-- A checkout environment whose collaborators all fail. -/
def emptyCheckoutEnv : CheckoutEnv :=
  CheckoutEnv.mk "" (fun _ => none) (fun _ => none) (fun _ => none) (fun _ => none)

/-- Trivial raw kwargs used where their content is irrelevant. -/
def c7Kw : RawKwargs :=
  RawKwargs.mk (PyVal.pstr "") (PyVal.pstr "") (PyVal.pstr "") "" 0 "" ""

/-- Checkout environment for the equal-redirect-URLs scenario: lookups
resolve, the provider call fails (the call is still issued). -/
def c8Env : CheckoutEnv :=
  CheckoutEnv.mk "https://shop.example"
    (fun _ => some (PaymentRequestDoc.mk "SO8" 0))
    (fun _ => some (SalesOrderDoc.mk "CUST8" []))
    (fun _ => none) (fun _ => none)

/-- Decoded kwargs for the equal-redirect-URLs scenario. -/
def c8Dkw : DecodedKwargs :=
  DecodedKwargs.mk "Title" "Desc" "Payer" "p@example.com" 5000 "Payment Request" "PR8"

/-- Raw kwargs whose `title` is an ordinary `str`, not `bytes`. -/
def c10Kw : RawKwargs :=
  RawKwargs.mk (PyVal.pstr "Order") (PyVal.pbytes [80]) (PyVal.pbytes [65])
    "e@example.com" 1 "Payment Request" "PRX"

end XenditSpec

namespace XenditSpec

/-! ## Theorems -/

/-- Updating the status of the record named by the token changes exactly
that record, so a later lookup finds it with the new status. -/
theorem find_update (store : List IntegrationRequest) (token s : String) :
    (update_integration_request_status store token s).find? (fun r => r.name == token)
      = (store.find? (fun r => r.name == token)).map (fun r => { r with status := s }) := by
  induction store with
  | nil => rfl
  | cons a t ih =>
    simp only [update_integration_request_status, List.map_cons, List.find?_cons]
    cases h : a.name == token with
    | true => simp [h]
    | false =>
      simp [h]
      simpa [update_integration_request_status] using ih

/-- Claim C1, counterexample: for a token whose stored status is already
Completed, a Confirm call observing provider status PAID still invokes
the payment-authorized notification hook (the hook is not guarded by the
stored status, so it does fire a second time). -/
theorem confirm_completed_token_notifies_again :
    c1ReqCompleted.status = "Completed" ∧
    (confirm_payment c1Env [c1ReqCompleted] "PR1").notifyCount = 1 ∧
    (confirm_payment c1Env [c1ReqCompleted] "PR1").redirectLocation.isSome = true := by
  decide

/-- Claim C1, amended: whenever the stored record exists (whatever its
stored status) and the fetched invoice status is PAID, a Confirm call
invokes the notification hook exactly once and produces the success
redirect target; hence two sequential Confirm calls that both observe
PAID fire the hook twice in total, once per call, and both produce the
success redirect target. -/
theorem confirm_paid_notifies_on_every_call
    (env : ConfirmEnv) (store : List IntegrationRequest) (token : String)
    (req : IntegrationRequest) (inv : InvoiceJson)
    (hfind : store.find? (fun r => r.name == token) = some req)
    (hget : env.getInvoice req.output.id = some inv)
    (hpaid : inv.status = "PAID") :
    (confirm_payment env store token).notifyCount = 1 ∧
    (confirm_payment env store token).redirectLocation = some (success_redirect_target env req) ∧
    (confirm_payment env (confirm_payment env store token).store token).notifyCount = 1 ∧
    (confirm_payment env (confirm_payment env store token).store token).redirectLocation
      = some (success_redirect_target env req) := by
  have h1 : confirm_payment env store token
      = ConfirmOutcome.mk (update_integration_request_status store token "Completed") 1 1
        none false (some (success_redirect_target env req)) := by
    simp [confirm_payment, hfind, hget, confirm_try_block, hpaid, readVar,
      success_redirect_target]
  have hfind2 : (update_integration_request_status store token "Completed").find?
      (fun r => r.name == token) = some { req with status := "Completed" } := by
    rw [find_update, hfind]; rfl
  have hget2 : env.getInvoice ({ req with status := "Completed" } : IntegrationRequest).output.id
      = some inv := hget
  have h2 : confirm_payment env (update_integration_request_status store token "Completed") token
      = ConfirmOutcome.mk
        (update_integration_request_status
          (update_integration_request_status store token "Completed") token "Completed") 1 1
        none false (some (success_redirect_target env req)) := by
    simp [confirm_payment, hfind2, hget2, confirm_try_block, hpaid, readVar,
      success_redirect_target]
  refine ⟨by rw [h1], by rw [h1], ?_, ?_⟩
  · rw [h1]
    exact congrArg ConfirmOutcome.notifyCount h2
  · rw [h1]
    exact congrArg ConfirmOutcome.redirectLocation h2

/-- Claim C1, witness: a concrete Pending token confirmed twice under a
provider that reports PAID on both calls. -/
theorem confirm_paid_notifies_on_every_call_witness :
    (confirm_payment c1wEnv [c1wReq] "PR2").notifyCount = 1 ∧
    (confirm_payment c1wEnv [c1wReq] "PR2").redirectLocation
      = some (success_redirect_target c1wEnv c1wReq) ∧
    (confirm_payment c1wEnv (confirm_payment c1wEnv [c1wReq] "PR2").store "PR2").notifyCount = 1 ∧
    (confirm_payment c1wEnv (confirm_payment c1wEnv [c1wReq] "PR2").store "PR2").redirectLocation
      = some (success_redirect_target c1wEnv c1wReq) :=
  confirm_paid_notifies_on_every_call c1wEnv [c1wReq] "PR2" c1wReq c1wInv
    (by decide) (by decide) (by decide)

/-- Claim C2, counterexample: a Confirm call with an unknown token does
not log-and-redirect; it raises the fetch-failure error past the
endpoint and sets no redirect response at all. -/
theorem confirm_unknown_token_throws :
    (confirm_payment c2Env [] "ghost").thrownMsg = some fetch_fail_msg ∧
    (confirm_payment c2Env [] "ghost").redirectLocation = none ∧
    (confirm_payment c2Env [] "ghost").loggedError = false := by
  decide

/-- Claim C2, amended: when the token is unknown or the provider invoice
fetch fails, `confirm_payment` raises the fetch-failure error
(`frappe.throw`) instead of producing a redirect; the stored records are
left unmutated and no redirect response is set. -/
theorem confirm_fetch_failure_throws
    (env : ConfirmEnv) (store : List IntegrationRequest) (token : String) :
    (store.find? (fun r => r.name == token) = none →
      confirm_payment env store token
        = ConfirmOutcome.mk store 0 0 (some fetch_fail_msg) false none) ∧
    (∀ req, store.find? (fun r => r.name == token) = some req →
      env.getInvoice req.output.id = none →
      confirm_payment env store token
        = ConfirmOutcome.mk store 0 1 (some fetch_fail_msg) false none) := by
  constructor
  · intro h
    simp [confirm_payment, h]
  · intro req h1 h2
    simp [confirm_payment, h1, h2]

/-- Claim C2, witness: an unknown token and a failing provider fetch on
a concrete store. -/
theorem confirm_fetch_failure_throws_witness :
    confirm_payment c2Env [] "ghost" = ConfirmOutcome.mk [] 0 0 (some fetch_fail_msg) false none ∧
    confirm_payment c2Env [c2Req] "PR3"
      = ConfirmOutcome.mk [c2Req] 0 1 (some fetch_fail_msg) false none :=
  ⟨(confirm_fetch_failure_throws c2Env [] "ghost").1 (by decide),
   (confirm_fetch_failure_throws c2Env [c2Req] "PR3").2 c2Req (by decide) (by decide)⟩

end XenditSpec

namespace XenditSpec

/-- Rounding a nonnegative fraction to the nearest integer gives a
nonnegative integer. -/
theorem roundHalfEvenFrac_nonneg (n : ℤ) (d : ℕ) (hn : 0 ≤ n) :
    0 ≤ roundHalfEvenFrac n d := by
  have hf : 0 ≤ Int.fdiv n (d : ℤ) := Int.fdiv_nonneg hn (Int.natCast_nonneg d)
  simp only [roundHalfEvenFrac]
  split
  · exact hf
  · split
    · omega
    · split
      · exact hf
      · omega

/-- The mantissa produced for a positive fraction is nonnegative. -/
theorem flFracPos_fst_nonneg (n d : ℕ) : 0 ≤ (flFracPos n d).1 := by
  simp only [flFracPos]
  split
  · exact roundHalfEvenFrac_nonneg _ _ (Int.natCast_nonneg _)
  · exact roundHalfEvenFrac_nonneg _ _ (Int.natCast_nonneg _)

/-- Rounding a nonnegative fraction to binary64 gives a nonnegative
mantissa. -/
theorem flFrac_fst_nonneg (n : ℤ) (d : ℕ) (hn : 0 ≤ n) : 0 ≤ (flFrac n d).1 := by
  simp only [flFrac]
  split
  · simp
  next h0 =>
    split
    next => exact flFracPos_fst_nonneg _ _
    next hpos => exact absurd (hn.lt_of_ne (Ne.symm h0)) hpos

/-- Rounding a nonnegative dyadic to binary64 gives a nonnegative
mantissa. -/
theorem flDyadic_fst_nonneg (m e : ℤ) (hm : 0 ≤ m) : 0 ≤ (flDyadic m e).1 := by
  simp only [flDyadic]
  split
  · exact flFrac_fst_nonneg _ _ (mul_nonneg hm (Int.natCast_nonneg _))
  · exact flFrac_fst_nonneg _ _ hm

/-- Binary64 multiplication preserves nonnegativity of the mantissa. -/
theorem flMul_fst_nonneg (x y : ℤ × ℤ) (hx : 0 ≤ x.1) (hy : 0 ≤ y.1) :
    0 ≤ (flMul x y).1 :=
  flDyadic_fst_nonneg _ _ (mul_nonneg hx hy)

/-- Binary64 division by a positive integer preserves nonnegativity of
the mantissa. -/
theorem flDivNat_fst_nonneg (x : ℤ × ℤ) (k : ℕ) (hx : 0 ≤ x.1) :
    0 ≤ (flDivNat x k).1 := by
  simp only [flDivNat]
  split
  · exact flFrac_fst_nonneg _ _ (mul_nonneg hx (Int.natCast_nonneg _))
  · exact flFrac_fst_nonneg _ _ hx

/-- On a nonnegative double, Python `int()` truncation agrees with the
floor of the exact value. -/
theorem pyInt_eq_floor (x : ℤ × ℤ) (hx : 0 ≤ x.1) : pyInt x = ⌊dyadicVal x⌋ := by
  simp only [pyInt, dyadicVal]
  split
  next he =>
    obtain ⟨k, hk⟩ := Int.eq_ofNat_of_zero_le he
    rw [hk, zpow_natCast, Int.toNat_natCast]
    rw [show ((x.1 : ℚ)) * (2 : ℚ) ^ k = ((x.1 * 2 ^ k : ℤ) : ℚ) from by push_cast; ring]
    rw [Int.floor_intCast]
    push_cast
    ring
  next he =>
    have hneg : 0 ≤ -x.2 := by omega
    obtain ⟨k, hk⟩ := Int.eq_ofNat_of_zero_le hneg
    have hk2 : x.2 = -(k : ℤ) := by omega
    rw [hk2, neg_neg, Int.toNat_natCast, zpow_neg, zpow_natCast, ← div_eq_mul_inv]
    rw [show ((2 : ℚ) ^ k) = ((2 ^ k : ℕ) : ℚ) from by push_cast; ring]
    rw [Rat.floor_intCast_div_natCast]
    exact Int.tdiv_eq_ediv hx (Int.natCast_nonneg _)

set_option maxRecDepth 4000 in
/-- Claim C3, counterexample: the fee is computed in binary64 floating
point, where 2.9/100 is strictly below 0.029; at A = 1000000 the program
computes int(28.999999999999996) = 28 and a fee of 30000, while the
claimed exact formula gives 31000. -/
theorem compute_fee_spec_formula_fails :
    computeFee 1000000 = 30000 ∧
    2000 + ⌊((0.029 : ℚ) * 1000000) / 1000⌋ * 1000 = 31000 ∧
    computeFee 1000000 ≠ 2000 + ⌊((0.029 : ℚ) * 1000000) / 1000⌋ * 1000 := by
  have h1 : computeFee 1000000 = 30000 := by decide
  have h2 : (2000 : ℤ) + ⌊((0.029 : ℚ) * 1000000) / 1000⌋ * 1000 = 31000 := by
    norm_num [Int.floor_eq_iff]
  refine ⟨h1, h2, ?_⟩
  rw [h1, h2]
  decide

set_option maxRecDepth 4000 in
/-- Claim C3, amended: the fee is a flat 2000 plus the 2.9 percent
surcharge computed in binary64 floating point and truncated down to the
nearest lower multiple of 1000: for every A at or above 0 the fee equals
2000 + floor(fl(fl(2.9/100) * A) / 1000 as doubles) * 1000; the claimed
exact formula agrees at the worked example A = 100000 (fee 4000) but
not universally: at A = 1000000 the fee is 30000, not 31000. -/
theorem compute_fee_binary64 :
    (∀ A : ℚ, 0 ≤ A →
      computeFee A
        = 2000 + ⌊dyadicVal (flDivNat (flMul py_2_9_div_100 (flFrac A.num A.den)) 1000)⌋ * 1000) ∧
    computeFee 100000 = 4000 ∧
    computeFee 100000 = 2000 + ⌊((0.029 : ℚ) * 100000) / 1000⌋ * 1000 ∧
    computeFee 1000000 = 30000 := by
  have hc : 0 ≤ py_2_9_div_100.1 := by decide
  have h100k : computeFee 100000 = 4000 := by decide
  refine ⟨?_, h100k, ?_, by decide⟩
  · intro A hA
    have hnum : 0 ≤ A.num := Rat.num_nonneg.mpr hA
    have h1 : 0 ≤ (flFrac A.num A.den).1 := flFrac_fst_nonneg _ _ hnum
    have h2 : 0 ≤ (flMul py_2_9_div_100 (flFrac A.num A.den)).1 :=
      flMul_fst_nonneg _ _ hc h1
    have h3 : 0 ≤ (flDivNat (flMul py_2_9_div_100 (flFrac A.num A.den)) 1000).1 :=
      flDivNat_fst_nonneg _ _ h2
    simp only [computeFee]
    rw [pyInt_eq_floor _ h3]
  · rw [h100k]
    norm_num [Int.floor_eq_iff]

/-- Claim C3, witness: the amended theorem instantiated at A = 100000. -/
theorem compute_fee_binary64_witness :
    computeFee 100000
      = 2000 + ⌊dyadicVal (flDivNat (flMul py_2_9_div_100
          (flFrac (100000 : ℚ).num (100000 : ℚ).den)) 1000)⌋ * 1000 :=
  compute_fee_binary64.1 100000 (by norm_num)

/-- Claim C4: evaluating `confirm_payment` at a stored Pending token
whose fetched invoice status is PENDING (not PAID): the token is NOT
marked Failed (the store is unchanged), no redirect response is set, and
an internal error is caught and logged instead. -/
theorem confirm_unpaid_leaves_status_and_no_redirect :
    c4Req.status = "Pending" ∧
    confirm_payment c4Env [c4Req] "PR4" = ConfirmOutcome.mk [c4Req] 0 1 none true none := by
  decide

/-- Claim C5, counterexample: with overrideTarget thanks?id=7 and
redirect_message hi there, the built URL URL-encodes the override as the
value of a redirect_to query parameter and encodes the space as a plus
sign, so it does not end in thanks?id=7&redirect_message=hi%20there. -/
theorem setup_redirect_example_encoding :
    setup_redirect none (some "hi there") "payment-success?doctype=PR&docname=PR1"
      (some "thanks?id=7")
      = "payment-success?doctype=PR&docname=PR1&redirect_to=thanks%3Fid%3D7&redirect_message=hi+there" ∧
    (("thanks?id=7&redirect_message=hi%20there").data.isSuffixOf
      (setup_redirect none (some "hi there") "payment-success?doctype=PR&docname=PR1"
        (some "thanks?id=7")).data) = false := by
  decide

/-- Claim C5, amended: a supplied overrideTarget replaces the
data-supplied redirect_to value (the base target is kept) and both
redirect_to and redirect_message are appended as URL-encoded query
parameters, the override appearing quote_plus-encoded as the value of
the redirect_to parameter (spaces become plus signs). -/
theorem setup_redirect_appends_encoded_params
    (base m c : String) (d : Option String) (hc : c ≠ "") (hm : m ≠ "") :
    setup_redirect d (some m) base (some c)
      = base ++ "&" ++ urlencode "redirect_to" c ++ "&" ++ urlencode "redirect_message" m := by
  have hcb : (c == "") = false := by simpa using hc
  have hmb : (m == "") = false := by simpa using hm
  simp [setup_redirect, truthyOpt, hcb, hmb]

/-- Claim C5, witness: the amended statement at the example input,
showing the data-supplied redirect_to is replaced by the override. -/
theorem setup_redirect_appends_encoded_params_witness :
    setup_redirect (some "ignored") (some "hi there") "payment-success?doctype=PR&docname=PR1"
      (some "thanks?id=7")
      = "payment-success?doctype=PR&docname=PR1" ++ "&" ++ urlencode "redirect_to" "thanks?id=7"
        ++ "&" ++ urlencode "redirect_message" "hi there" :=
  setup_redirect_appends_encoded_params "payment-success?doctype=PR&docname=PR1"
    "hi there" "thanks?id=7" (some "ignored") (by decide) (by decide)

/-- Claim C9: on every Confirm call whose fetched invoice status is not
PAID, the `try` block reads the never-assigned local
`custom_redirect_to`, so it raises `UnboundLocalError`; the handler only
logs it, no redirect response is set, nothing is thrown to the browser,
and the store is unchanged. -/
theorem confirm_unpaid_unbound_custom_redirect
    (env : ConfirmEnv) (store : List IntegrationRequest) (token : String)
    (req : IntegrationRequest) (inv : InvoiceJson)
    (hfind : store.find? (fun r => r.name == token) = some req)
    (hget : env.getInvoice req.output.id = some inv)
    (hnot : inv.status ≠ "PAID") :
    confirm_try_block env store token req inv
      = ((store, 0), Except.error (PyExc.unboundLocalError "custom_redirect_to")) ∧
    confirm_payment env store token = ConfirmOutcome.mk store 0 1 none true none := by
  have ht : confirm_try_block env store token req inv
      = ((store, 0), Except.error (PyExc.unboundLocalError "custom_redirect_to")) := by
    simp [confirm_try_block, if_neg hnot, readVar]
  exact ⟨ht, by simp [confirm_payment, hfind, hget, ht]⟩

/-- Claim C9, witness: a concrete Pending token whose invoice comes back
EXPIRED. -/
theorem confirm_unpaid_unbound_custom_redirect_witness :
    confirm_try_block c9Env [c9Req] "PR9" c9Req (InvoiceJson.mk "inv9" "PR9" "EXPIRED" "u9")
      = (([c9Req], 0), Except.error (PyExc.unboundLocalError "custom_redirect_to")) ∧
    confirm_payment c9Env [c9Req] "PR9" = ConfirmOutcome.mk [c9Req] 0 1 none true none :=
  confirm_unpaid_unbound_custom_redirect c9Env [c9Req] "PR9" c9Req
    (InvoiceJson.mk "inv9" "PR9" "EXPIRED" "u9") (by decide) (by decide) (by decide)

end XenditSpec

namespace XenditSpec

/-- Claim C7: the allow-list is exactly IDR; IDR validates without
error; any other currency fails with the unsupported-currency error, and
a checkout request with such a currency performs zero provider calls and
persists nothing. -/
theorem validate_currency_allowlist :
    supported_currencies = ["IDR"] ∧
    validate_transaction_currency "IDR" = none ∧
    (∀ c : String, c ∉ supported_currencies →
      validate_transaction_currency c
        = some ("Please select another payment method. Xendit does not support transactions in currency \x27"
            ++ c ++ "\x27")) ∧
    (∀ (env : CheckoutEnv) (kw : RawKwargs) (c : String), c ∉ supported_currencies →
      requestCheckout env kw c
        = GatewayOutcome.mk
            (Except.error ("Please select another payment method. Xendit does not support transactions in currency \x27"
              ++ c ++ "\x27")) [] []) := by
  refine ⟨rfl, by decide, ?_, ?_⟩
  · intro c hc
    simp [validate_transaction_currency, hc]
  · intro env kw c hc
    simp [requestCheckout, validate_transaction_currency, hc]

/-- Claim C7, witness: the theorem instantiated at the currency USD. -/
theorem validate_currency_allowlist_witness :
    validate_transaction_currency "USD"
      = some ("Please select another payment method. Xendit does not support transactions in currency \x27USD\x27") ∧
    requestCheckout emptyCheckoutEnv c7Kw "USD"
      = GatewayOutcome.mk
          (Except.error "Please select another payment method. Xendit does not support transactions in currency \x27USD\x27")
          [] [] := by
  constructor
  · have h := validate_currency_allowlist.2.2.1 "USD" (by decide)
    simpa using h
  · have h := validate_currency_allowlist.2.2.2 emptyCheckoutEnv c7Kw "USD" (by decide)
    simpa using h

/-- Claim C10: whenever any of title, description or payer_name is not
an ASCII-decodable byte string, `get_payment_url` raises before any
provider call is made and before anything is persisted. -/
theorem get_payment_url_requires_ascii_bytes
    (env : CheckoutEnv) (kw : RawKwargs)
    (h : decodeFails kw.title = true ∨ decodeFails kw.description = true
      ∨ decodeFails kw.payer_name = true) :
    (∃ e, (get_payment_url env kw).result = Except.error e) ∧
    (get_payment_url env kw).createCalls = [] ∧
    (get_payment_url env kw).requestLogs = [] := by
  cases h1 : decodeAscii kw.title with
  | error e => exact ⟨⟨e, by simp [get_payment_url, h1]⟩, by simp [get_payment_url, h1],
      by simp [get_payment_url, h1]⟩
  | ok t =>
    cases h2 : decodeAscii kw.description with
    | error e => exact ⟨⟨e, by simp [get_payment_url, h1, h2]⟩, by simp [get_payment_url, h1, h2],
        by simp [get_payment_url, h1, h2]⟩
    | ok d =>
      cases h3 : decodeAscii kw.payer_name with
      | error e => exact ⟨⟨e, by simp [get_payment_url, h1, h2, h3]⟩,
          by simp [get_payment_url, h1, h2, h3], by simp [get_payment_url, h1, h2, h3]⟩
      | ok p =>
        exfalso
        rcases h with h | h | h <;> simp_all [decodeFails]

/-- Claim C10, witness: kwargs whose title is an ordinary `str`. -/
theorem get_payment_url_requires_ascii_bytes_witness :
    (∃ e, (get_payment_url emptyCheckoutEnv c10Kw).result = Except.error e) ∧
    (get_payment_url emptyCheckoutEnv c10Kw).createCalls = [] ∧
    (get_payment_url emptyCheckoutEnv c10Kw).requestLogs = [] :=
  get_payment_url_requires_ascii_bytes emptyCheckoutEnv c10Kw (Or.inl (by decide))

end XenditSpec

namespace XenditSpec

/-- Claim C8: every `Invoice.create` call issued by the checkout carries
identical success and failure redirect URLs, both pointing at the
`confirm_payment` endpoint parameterized by the token (the external id);
and a Confirm call only ever sets a redirect after re-querying the
provider (exactly one `Invoice.get` call). -/
theorem invoice_redirect_urls_identical :
    (∀ (env : CheckoutEnv) (kw : DecodedKwargs) (args : InvoiceArgs),
      args ∈ (execute_set_express_checkout env kw).createCalls →
      args.success_redirect_url = args.failure_redirect_url ∧
      args.success_redirect_url
        = get_url env.siteBase (api_path ++ ".confirm_payment?token=" ++ args.external_id)) ∧
    (∀ (env : ConfirmEnv) (store : List IntegrationRequest) (token : String),
      (confirm_payment env store token).redirectLocation ≠ none →
      (confirm_payment env store token).providerCalls = 1) := by
  constructor
  · intro env kw args hmem
    cases h1 : env.paymentRequest kw.reference_docname with
    | none => simp [execute_set_express_checkout, h1] at hmem
    | some pr =>
      cases h2 : env.salesOrder pr.reference_name with
      | none => simp [execute_set_express_checkout, h1, h2] at hmem
      | some so =>
        have hargs : args = build_invoice_args env kw pr so := by
          cases h3 : env.createInvoice (build_invoice_args env kw pr so) with
          | none =>
            simpa [execute_set_express_checkout, h1, h2, h3] using hmem
          | some inv =>
            simpa [execute_set_express_checkout, h1, h2, h3] using hmem
        subst hargs
        exact ⟨rfl, rfl⟩
  · intro env store token h
    cases h1 : store.find? (fun r => r.name == token) with
    | none => simp [confirm_payment, h1] at h
    | some req =>
      cases h2 : env.getInvoice req.output.id with
      | none => simp [confirm_payment, h1, h2] at h
      | some inv =>
        cases h3 : confirm_try_block env store token req inv with
        | mk sn r =>
          cases r with
          | ok loc => simp [confirm_payment, h1, h2, h3]
          | error e => simp [confirm_payment, h1, h2, h3]

/-- Claim C8, witness: a concrete checkout whose provider call is issued
(and fails), and a concrete PAID confirmation. -/
theorem invoice_redirect_urls_identical_witness :
    ((build_invoice_args c8Env c8Dkw (PaymentRequestDoc.mk "SO8" 0)
        (SalesOrderDoc.mk "CUST8" [])).success_redirect_url
      = (build_invoice_args c8Env c8Dkw (PaymentRequestDoc.mk "SO8" 0)
        (SalesOrderDoc.mk "CUST8" [])).failure_redirect_url ∧
     (build_invoice_args c8Env c8Dkw (PaymentRequestDoc.mk "SO8" 0)
        (SalesOrderDoc.mk "CUST8" [])).success_redirect_url
      = get_url c8Env.siteBase (api_path ++ ".confirm_payment?token="
          ++ (build_invoice_args c8Env c8Dkw (PaymentRequestDoc.mk "SO8" 0)
            (SalesOrderDoc.mk "CUST8" [])).external_id)) ∧
    (confirm_payment c1Env [c1ReqCompleted] "PR1").providerCalls = 1 :=
  ⟨invoice_redirect_urls_identical.1 c8Env c8Dkw
      (build_invoice_args c8Env c8Dkw (PaymentRequestDoc.mk "SO8" 0) (SalesOrderDoc.mk "CUST8" []))
      (by
        have h : (execute_set_express_checkout c8Env c8Dkw).createCalls
            = [build_invoice_args c8Env c8Dkw (PaymentRequestDoc.mk "SO8" 0)
                (SalesOrderDoc.mk "CUST8" [])] := rfl
        rw [h]
        exact List.mem_singleton.mpr rfl),
   invoice_redirect_urls_identical.2 c1Env [c1ReqCompleted] "PR1" (by decide)⟩

end XenditSpec

namespace XenditSpec

/-- `get_payment_url` has exactly three observable shapes: an error
before the provider call with nothing issued and nothing persisted; the
provider call issued but failed, with the throw surfaced and nothing
persisted; or the provider call succeeded, with exactly one request-log
record persisted, named by the echoed external id, holding the response,
and the returned invoice URL. -/
theorem get_payment_url_cases (env : CheckoutEnv) (kw : RawKwargs) :
    (∃ e, get_payment_url env kw = GatewayOutcome.mk (Except.error e) [] []) ∨
    (∃ args, get_payment_url env kw
        = GatewayOutcome.mk
            (Except.error "Failed to create Xendit Invoice, please check your settings") [args] []
      ∧ env.createInvoice args = none ∧ args.external_id = kw.reference_docname) ∨
    (∃ args resp, get_payment_url env kw
        = GatewayOutcome.mk (Except.ok resp.invoice_url) [args]
            [IntegrationRequest.mk resp.external_id "Pending" resp kw.reference_doctype
              kw.reference_docname none none]
      ∧ env.createInvoice args = some resp ∧ args.external_id = kw.reference_docname) := by
  cases h1 : decodeAscii kw.title with
  | error e => exact Or.inl ⟨e, by simp [get_payment_url, h1]⟩
  | ok t =>
    cases h2 : decodeAscii kw.description with
    | error e => exact Or.inl ⟨e, by simp [get_payment_url, h1, h2]⟩
    | ok d =>
      cases h3 : decodeAscii kw.payer_name with
      | error e => exact Or.inl ⟨e, by simp [get_payment_url, h1, h2, h3]⟩
      | ok p =>
        cases h4 : env.paymentRequest kw.reference_docname with
        | none =>
          exact Or.inl ⟨"Referenced doctype for checkout is not a Payment Request",
            by simp [get_payment_url, execute_set_express_checkout, h1, h2, h3, h4]⟩
        | some pr =>
          cases h5 : env.salesOrder pr.reference_name with
          | none =>
            exact Or.inl ⟨"Doctype referenced by Payment Request is not a Sales Order",
              by simp [get_payment_url, execute_set_express_checkout, h1, h2, h3, h4, h5]⟩
          | some so =>
            cases h6 : env.createInvoice (build_invoice_args env
                (DecodedKwargs.mk t d p kw.payer_email kw.amount kw.reference_doctype
                  kw.reference_docname) pr so) with
            | none =>
              refine Or.inr (Or.inl ⟨_, ?_, h6, rfl⟩)
              simp [get_payment_url, execute_set_express_checkout, h1, h2, h3, h4, h5, h6]
            | some inv =>
              refine Or.inr (Or.inr ⟨_, inv, ?_, h6, rfl⟩)
              simp [get_payment_url, execute_set_express_checkout, create_request_log,
                h1, h2, h3, h4, h5, h6]

/-- Claim C6: a checkout persists a request-log record if and only if
the `Invoice.create` provider call was issued and succeeded; when the
issued call fails, the creation error is surfaced and nothing is
persisted; when it succeeds and the provider echoes the external id,
exactly one record is persisted, named by the token, with status Pending
and the provider response (including the returned invoice id) as its
output, and the invoice URL is returned. -/
theorem get_payment_url_persists_iff_invoice_created (env : CheckoutEnv) (kw : RawKwargs) :
    ((get_payment_url env kw).requestLogs ≠ [] ↔
      ∃ args resp, (get_payment_url env kw).createCalls = [args]
        ∧ env.createInvoice args = some resp) ∧
    (∀ args, (get_payment_url env kw).createCalls = [args] →
      env.createInvoice args = none →
      (get_payment_url env kw).result
        = Except.error "Failed to create Xendit Invoice, please check your settings" ∧
      (get_payment_url env kw).requestLogs = []) ∧
    (∀ args resp, (get_payment_url env kw).createCalls = [args] →
      env.createInvoice args = some resp →
      resp.external_id = args.external_id →
      (get_payment_url env kw).result = Except.ok resp.invoice_url ∧
      (get_payment_url env kw).requestLogs
        = [IntegrationRequest.mk kw.reference_docname "Pending" resp kw.reference_doctype
            kw.reference_docname none none]) := by
  rcases get_payment_url_cases env kw with ⟨e, h⟩ | ⟨args0, h, hn, hx⟩ | ⟨args0, resp0, h, hs, hx⟩
  · refine ⟨by simp [h], ?_, ?_⟩
    · intro args h1 h2
      rw [h] at h1
      simp at h1
    · intro args resp h1 h2 h3
      rw [h] at h1
      simp at h1
  · refine ⟨by simp [h, hn], ?_, ?_⟩
    · intro args h1 h2
      rw [h] at h1 ⊢
      simp at h1
      subst h1
      exact ⟨rfl, rfl⟩
    · intro args resp h1 h2 h3
      rw [h] at h1
      simp at h1
      subst h1
      rw [hn] at h2
      exact absurd h2 (by simp)
  · refine ⟨by simp [h, hs], ?_, ?_⟩
    · intro args h1 h2
      rw [h] at h1
      simp at h1
      subst h1
      rw [hs] at h2
      exact absurd h2 (by simp)
    · intro args resp h1 h2 h3
      rw [h] at h1 ⊢
      simp at h1
      subst h1
      rw [hs] at h2
      have hr : resp0 = resp := by
        injection h2
      subst hr
      have hname : resp0.external_id = kw.reference_docname := by
        rw [h3, hx]
      rw [hname]
      exact ⟨rfl, rfl⟩

/-- Claim C6, witness: the happy path on a concrete environment whose
provider echoes the external id. -/
theorem get_payment_url_persists_iff_invoice_created_witness :
    (get_payment_url c6Env c6Kw).result = Except.ok c6Resp.invoice_url ∧
    (get_payment_url c6Env c6Kw).requestLogs
      = [IntegrationRequest.mk "PR1" "Pending" c6Resp "Payment Request" "PR1" none none] :=
  (get_payment_url_persists_iff_invoice_created c6Env c6Kw).2.2
    (build_invoice_args c6Env
      (DecodedKwargs.mk "Order" "Pay" "Ana" "ana@example.com" 104000 "Payment Request" "PR1")
      c6Pr c6So)
    c6Resp rfl rfl rfl

end XenditSpec
